import Mathlib

set_option maxRecDepth 8192

/-!
Verification of the Replibyte Postgres destination connector
(`src/replibyte/src/destination/postgres.rs`).

The connector is embedded shallowly: `wipe_database_query` is translated
directly from the source; `init` and `write` are modelled as pure functions
from the connector state and a `World` oracle (which supplies the outcomes of
the external effects: whether `psql` resolves, whether the spawn succeeds, the
process exit status, and whether writing to the child's stdin succeeds) to a
result together with the unchanged connector state and a trace of the effects
performed, in source order. Helpers that live outside the staged sources
(`binary_exists`, `wait_for_command`, `SshConfig::ssh_command`, and the
standard library's piped-stdin contract) are modelled from the spec, as noted
on their definitions.
-/

namespace Replibyte

/-! ## Substring occurrence counting -/

/-- Number of starting positions (including the position one past the end) at
which `p` occurs as a contiguous sublist of `s`. For nonempty `p` this is the
number of occurrences of `p` in `s` counted with multiplicity of starting
position, i.e. the literal-substring-match count. -/
def countOccs (p : List Char) : List Char → Nat
  | [] => if p <+: ([] : List Char) then 1 else 0
  | c :: s => (if p <+: (c :: s) then 1 else 0) + countOccs p s

theorem countOccs_nil {p : List Char} (hp : p ≠ []) : countOccs p [] = 0 := by
  simp [countOccs, hp]

/-- A prefix of `a ++ b` is a prefix of `a`, or extends `a`. -/
theorem prefix_append_or {p a b : List Char} (h : p <+: a ++ b) :
    p <+: a ∨ a <+: p := by
  obtain ⟨t, ht⟩ := h
  rcases List.append_eq_append_iff.mp ht with ⟨a2, ha, _⟩ | ⟨c2, hc, _⟩
  · exact Or.inl ⟨a2, ha.symm⟩
  · exact Or.inr ⟨c2, hc.symm⟩

/-- A nonempty pattern that avoids the head character of a list is not a
prefix of that list. -/
theorem not_prefix_cons_of_not_mem {p : List Char} {c : Char} (b : List Char)
    (hp : p ≠ []) (hcp : c ∉ p) : ¬ p <+: (c :: b) := by
  intro h
  cases p with
  | nil => exact hp rfl
  | cons q qs =>
      obtain ⟨t, ht⟩ := h
      have hqc : q = c := (List.cons.injEq q (qs ++ t) c b).mp ht |>.1
      exact hcp (hqc ▸ List.mem_cons_self q qs)

/-- Prepending a character that does not occur in the (nonempty) pattern does
not change the occurrence count. -/
theorem countOccs_cons_of_not_mem {p : List Char} {c : Char} (b : List Char)
    (hp : p ≠ []) (hcp : c ∉ p) : countOccs p (c :: b) = countOccs p b := by
  simp [countOccs, not_prefix_cons_of_not_mem b hp hcp]

/-- Occurrence counting distributes over an append whose right part starts
with a character that the pattern avoids: no occurrence can cross the split. -/
theorem countOccs_append_of_not_mem {p : List Char} (a : List Char) {c : Char}
    (b : List Char) (hp : p ≠ []) (hcp : c ∉ p) :
    countOccs p (a ++ c :: b) = countOccs p a + countOccs p (c :: b) := by
  induction a with
  | nil => simp [countOccs_nil hp]
  | cons x a' ih =>
      have hiff : p <+: ((x :: a') ++ c :: b) ↔ p <+: (x :: a') := by
        constructor
        · intro h
          rcases prefix_append_or h with h1 | h2
          · exact h1
          · obtain ⟨r, hr⟩ := h2
            obtain ⟨t, ht⟩ := h
            cases r with
            | nil =>
                have hpe : p = x :: a' := by simpa using hr.symm
                rw [hpe]
            | cons y r' =>
                rw [← hr, List.append_assoc] at ht
                have h3 := List.append_cancel_left ht
                have hyc : y = c := (List.cons.injEq y (r' ++ t) c b).mp h3 |>.1
                have hmem : c ∈ p := by
                  rw [← hr, ← hyc]
                  exact List.mem_append_right _ (List.mem_cons_self y r')
                exact absurd hmem hcp
        · intro h
          exact h.trans (List.prefix_append _ _)
      rw [List.cons_append]
      show (if p <+: (x :: (a' ++ c :: b)) then 1 else 0) + countOccs p (a' ++ c :: b)
          = ((if p <+: (x :: a') then 1 else 0) + countOccs p a') + countOccs p (c :: b)
      rw [ih, ← List.cons_append, if_congr hiff rfl rfl, Nat.add_assoc]

/-! ## The reset statement (`wipe_database_query`, postgres.rs lines 135-145) -/

/-- Translation of `wipe_database_query` from the source: the Rust string
continuations (backslash-newline) collapse to nothing, leaving a single-line
statement sequence parameterized solely by `username`. -/
def wipe_database_query (username : String) : String :=
  "DROP SCHEMA public CASCADE; CREATE SCHEMA public; GRANT ALL ON SCHEMA public TO \""
    ++ username
    ++ "\"; GRANT ALL ON SCHEMA public TO public;"

/-- Pattern for a DROP of the public schema (cascading). -/
def dropStmt : List Char := "DROP SCHEMA public CASCADE".data

/-- Pattern for a CREATE of the same schema name. -/
def createStmt : List Char := "CREATE SCHEMA public".data

/-- Pattern marking the start of a GRANT statement. -/
def grantWord : List Char := "GRANT".data

/-- Template text strictly before the interpolated username (it ends with the
opening double quote around the username). -/
def beforeUser : String := "DROP SCHEMA public CASCADE; CREATE SCHEMA public; GRANT ALL ON SCHEMA public TO "

/-- Template text strictly after the interpolated username (it starts with the
closing double quote around the username). -/
def afterUser : String := "; GRANT ALL ON SCHEMA public TO public;"

theorem wipe_query_split (u : String) :
    (wipe_database_query u).data =
      beforeUser.data ++ ('"' :: (u.data ++ ('"' :: afterUser.data))) := by
  show (wipe_database_query u).data =
      beforeUser.data ++ ('"' :: []) ++ (u.data ++ (('"' :: []) ++ afterUser.data))
  rw [wipe_database_query, String.data_append, String.data_append]
  have h1 : ("DROP SCHEMA public CASCADE; CREATE SCHEMA public; GRANT ALL ON SCHEMA public TO \"").data
      = beforeUser.data ++ ('"' :: []) := by decide
  have h2 : ("\"; GRANT ALL ON SCHEMA public TO public;").data
      = ('"' :: []) ++ afterUser.data := by decide
  rw [h1, h2, List.append_assoc]

/-- Occurrence counting in the generated reset statement splits into the
template pieces and the username, for every pattern that is nonempty and free
of the double-quote character (every occurrence lies wholly inside
`beforeUser`, the username, or `afterUser`). -/
theorem countOccs_wipe_query {p : List Char} (u : String) (hp : p ≠ [])
    (hq : ('"' : Char) ∉ p) :
    countOccs p (wipe_database_query u).data =
      countOccs p beforeUser.data + (countOccs p u.data + countOccs p afterUser.data) := by
  rw [wipe_query_split u, countOccs_append_of_not_mem _ _ hp hq,
      countOccs_cons_of_not_mem _ hp hq, countOccs_append_of_not_mem _ _ hp hq,
      countOccs_cons_of_not_mem _ hp hq]

/-- Gluing step for the decomposition of the reset statement: around an
arbitrary middle list, the concrete template pieces on either side concatenate
to the split form of `wipe_query_split`. -/
theorem wipe_query_glue (l : List Char) :
    beforeUser.data ++ ('"' :: (l ++ ('"' :: afterUser.data)))
      = (dropStmt ++ "; ".data ++ createStmt ++ "; ".data
          ++ grantWord ++ " ALL ON SCHEMA public TO \"".data)
        ++ l
        ++ ("\";".data ++ " ".data ++ grantWord ++ " ALL ON SCHEMA public TO public;".data) := by
  have h1 : beforeUser.data ++ ( '"' :: [])
      = dropStmt ++ "; ".data ++ createStmt ++ "; ".data
          ++ grantWord ++ " ALL ON SCHEMA public TO \"".data := by decide
  have h2 : ( '"' :: afterUser.data)
      = "\";".data ++ " ".data ++ grantWord ++ " ALL ON SCHEMA public TO public;".data := by
    decide
  rw [← h1, ← h2]
  simp [List.append_assoc]

/-- C1 (amended): for every username `u` in which none of the patterns
`"DROP SCHEMA public CASCADE"`, `"CREATE SCHEMA public"`, `"GRANT"` occurs as
a literal substring, the reset statement produced by `wipe_database_query u`
contains exactly one DROP of the public schema (cascading), exactly one
CREATE of the same schema name, and exactly two GRANT statements; the closing
decomposition equation exhibits the statement as the DROP text, then the
CREATE text, then the GRANT statement naming `u`, then the GRANT statement
naming the public role, so the DROP precedes the CREATE and the CREATE
precedes both GRANTs, and both GRANT statements occur as literal substrings.
The side condition on `u` is forced: an adversarial username (for example
`"GRANT"`) inflates the substring-match counts, see the counterexample. -/
theorem wipe_query_counts (u : String)
    (hd : countOccs dropStmt u.data = 0)
    (hc : countOccs createStmt u.data = 0)
    (hg : countOccs grantWord u.data = 0) :
    countOccs dropStmt (wipe_database_query u).data = 1 ∧
    countOccs createStmt (wipe_database_query u).data = 1 ∧
    countOccs grantWord (wipe_database_query u).data = 2 ∧
    (wipe_database_query u).data =
      (dropStmt ++ "; ".data ++ createStmt ++ "; ".data
          ++ grantWord ++ " ALL ON SCHEMA public TO \"".data)
        ++ u.data
        ++ ("\";".data ++ " ".data ++ grantWord ++ " ALL ON SCHEMA public TO public;".data) := by
  refine ⟨?_, ?_, ?_, ?_⟩
  · rw [countOccs_wipe_query u (by decide) (by decide), hd]
    have h1 : countOccs dropStmt beforeUser.data = 1 := by decide
    have h2 : countOccs dropStmt afterUser.data = 0 := by decide
    rw [h1, h2]
  · rw [countOccs_wipe_query u (by decide) (by decide), hc]
    have h1 : countOccs createStmt beforeUser.data = 1 := by decide
    have h2 : countOccs createStmt afterUser.data = 0 := by decide
    rw [h1, h2]
  · rw [countOccs_wipe_query u (by decide) (by decide), hg]
    have h1 : countOccs grantWord beforeUser.data = 1 := by decide
    have h2 : countOccs grantWord afterUser.data = 1 := by decide
    rw [h1, h2]
  · rw [wipe_query_split u]
    exact wipe_query_glue u.data

/-- C1 (counterexample): at the concrete username `"GRANT"` the reset
statement contains three occurrences of `"GRANT"` by literal substring match,
not the exactly two that the claim asserts for every username string. -/
theorem wipe_query_counts_cex :
    countOccs grantWord (wipe_database_query "GRANT").data = 3 ∧
    ¬ countOccs grantWord (wipe_database_query "GRANT").data = 2 := by
  constructor
  · decide
  · decide

/-- C1 (witness): the amended claim evaluated at the concrete username
`"alice"`. -/
theorem wipe_query_counts_witness :
    countOccs dropStmt "alice".data = 0 ∧
    countOccs createStmt "alice".data = 0 ∧
    countOccs grantWord "alice".data = 0 ∧
    (countOccs dropStmt (wipe_database_query "alice").data = 1 ∧
     countOccs createStmt (wipe_database_query "alice").data = 1 ∧
     countOccs grantWord (wipe_database_query "alice").data = 2 ∧
     (wipe_database_query "alice").data =
       (dropStmt ++ "; ".data ++ createStmt ++ "; ".data
           ++ grantWord ++ " ALL ON SCHEMA public TO \"".data)
         ++ ("alice" : String).data
         ++ ("\";".data ++ " ".data ++ grantWord
             ++ " ALL ON SCHEMA public TO public;".data)) :=
  ⟨by decide, by decide, by decide,
    wipe_query_counts "alice" (by decide) (by decide) (by decide)⟩

/-! ## Connector model (postgres.rs lines 11-133) -/

/-- Modelled from the spec: `SshConfig` (from `config.rs`, which is not among
the staged sources) describes the intermediate trusted host through which
commands are executed when a tunnel is configured. The claims depend only on
its presence or absence, so its fields are kept abstract as plain data. -/
structure SshConfig where
  host : String
  user : String
  port : Nat

/-- Byte payload handed to `write` (`Bytes` is `Vec<u8>` in the source; a byte
is modelled as a `Nat`). -/
def Bytes := List Nat

/-- The connector state: the fields of `struct Postgres` in the source. -/
structure Postgres where
  host : String
  port : Nat
  database : String
  username : String
  password : String
  wipe_database : Bool
  ssh_config : Option SshConfig

/-- A command specification: program, ordered argument list and environment
overrides, mirroring `std::process::Command` as the source configures it. -/
structure Cmd where
  program : String
  args : List String
  envs : List (String × String)

/-- The `psql` command `init` assembles when the reset flag is set
(postgres.rs lines 51-63): connection flags followed by `-c` and the reset
statement. -/
def wipe_db_cmd (p : Postgres) : Cmd :=
  { program := "psql"
    args := ["-h", p.host, "-p", Nat.repr p.port, "-d", p.database, "-U", p.username,
             "-c", wipe_database_query p.username]
    envs := [] }

/-- The `psql` command `write` assembles (postgres.rs lines 99-109):
connection flags only, statements read from standard input. -/
def psql_cmd (p : Postgres) : Cmd :=
  { program := "psql"
    args := ["-h", p.host, "-p", Nat.repr p.port, "-d", p.database, "-U", p.username]
    envs := [] }

/-- The command as dispatched: executed locally with the password merged into
the environment overrides, or handed to the remote wrapper together with the
secret-environment map. `SshConfig::ssh_command` is not among the staged
sources, so the wrapped command is kept abstract: the constructor records
exactly what the connector hands over. -/
inductive FinalCmd where
  | runLocal (cmd : Cmd)
  | viaSsh (ssh : SshConfig) (cmd : Cmd) (envs : List (String × String))

/-- The inner `psql` command of a dispatched command. -/
def FinalCmd.innerCmd : FinalCmd → Cmd
  | .runLocal c => c
  | .viaSsh _ c _ => c

/-- The environment-variable channel of a dispatched command: the local
environment overrides, or the secret-environment map handed to the remote
wrapper. -/
def FinalCmd.secretEnv : FinalCmd → List (String × String)
  | .runLocal c => c.envs
  | .viaSsh _ _ e => e

/-- The `match &self.ssh_config` dispatch common to `init` (lines 65-76) and
`write` (lines 111-122): with a tunnel, the untouched command and a fresh map
`{PGPASSWORD ↦ password}` go to `ssh_command`; without one, `PGPASSWORD` is
set as an environment override on the command itself. -/
def route (p : Postgres) (c : Cmd) : FinalCmd :=
  match p.ssh_config with
  | some ssh => .viaSsh ssh c [("PGPASSWORD", p.password)]
  | none => .runLocal { c with envs := c.envs ++ [("PGPASSWORD", p.password)] }

/-- Exit status of a reaped process: a status code, or termination by a
signal. `success` holds exactly for status code zero, as in the standard
library. -/
inductive ExitStatus where
  | exited (code : Nat)
  | signaled (sig : Nat)

def ExitStatus.success : ExitStatus → Bool
  | .exited 0 => true
  | .exited (_ + 1) => false
  | .signaled _ => false

/-- The raw status description (the standard library's display form). -/
def ExitStatus.descr : ExitStatus → String
  | .exited n => "exit status: " ++ Nat.repr n
  | .signaled n => "signal: " ++ Nat.repr n

/-- Rendering of Rust's `{:?}` debug format for the plain status strings used
here (they contain no characters needing escapes): the string wrapped in
double quotes. -/
def rustDebugStr (s : String) : String := "\"" ++ s ++ "\""

/-- Oracle for the outcomes of the external effects one `init` or `write`
call performs: whether `psql` resolves on the host, whether the spawn
succeeds (with its error text otherwise), the exit status the wait observes,
and whether writing the payload to the child's stdin fails. -/
structure World where
  psql_exists : Bool
  spawn_fails : Bool
  spawn_err : String
  exit_status : ExitStatus
  stdin_write_fails : Bool

/-- Errors surfaced by the connector, mirroring the `std::io::Error` values
the source constructs or propagates. -/
inductive IOError where
  | notFound (what : String)
  | spawnFailed (msg : String)
  | processFailed (desc : String)
  | other (msg : String)

/-- Observable effects of one call, in source order. -/
inductive Event where
  | checkBinary (name : String)
  | spawn (cmd : FinalCmd) (stdin_piped : Bool)
  | wroteStdin (data : Bytes) (failed : Bool)
  | waited

/-- Modelled from the spec: `wait_for_command` (in `utils.rs`, not among the
staged sources) waits synchronously for process exit and returns success only
for status code zero; any nonzero or signal-terminated exit yields a process
error carrying the raw status description. -/
def wait_for_command (st : ExitStatus) : Except IOError Unit :=
  if st.success then .ok () else .error (.processFailed st.descr)

/-- A spawned child process, exposing only its stdin handle. Modelled from
the standard library contract: a successfully spawned child has a present
stdin handle exactly when the command was configured with piped stdin before
spawning. -/
structure Child where
  stdin : Option Unit

def spawnChild (stdin_piped : Bool) : Child :=
  { stdin := if stdin_piped then some () else none }

/-- `Connector::init` for `Postgres` (postgres.rs lines 44-92), as a function
of the connector state and the world oracle; it returns the result, the
(unchanged) connector state as left behind by `&mut self`, and the effect
trace. The leading existence check models `binary_exists("psql")?` from
`utils.rs` (not among the staged sources), per the spec's tool-discovery
contract. When the reset flag is set, the reset command is assembled, routed,
spawned with inherited stdin and suppressed stdout, and waited on; a
non-success exit status becomes the inline
`command error: {:?}` error of lines 83-88. -/
def init (p : Postgres) (w : World) : Except IOError Unit × Postgres × List Event :=
  if w.psql_exists then
    if p.wipe_database then
      let cmd := route p (wipe_db_cmd p)
      if w.spawn_fails then
        (.error (.spawnFailed w.spawn_err), p, [.checkBinary "psql", .spawn cmd false])
      else if w.exit_status.success then
        (.ok (), p, [.checkBinary "psql", .spawn cmd false, .waited])
      else
        (.error (.other ("command error: " ++ rustDebugStr w.exit_status.descr)), p,
         [.checkBinary "psql", .spawn cmd false, .waited])
    else
      (.ok (), p, [.checkBinary "psql"])
  else
    (.error (.notFound "psql"), p, [.checkBinary "psql"])

/-- `Destination::write` for `Postgres` (postgres.rs lines 96-132): assembles
the stdin-mode `psql` command, routes it, spawns it with piped stdin and
suppressed stdout, writes the payload to the child's stdin with the result
discarded (`let _ = ...`, line 129), and returns `wait_for_command`'s
verdict. -/
def write (p : Postgres) (data : Bytes) (w : World) :
    Except IOError Unit × Postgres × List Event :=
  let cmd := route p (psql_cmd p)
  if w.spawn_fails then
    (.error (.spawnFailed w.spawn_err), p, [.spawn cmd true])
  else
    (wait_for_command w.exit_status, p,
     [.spawn cmd true, .wroteStdin data w.stdin_write_fails, .waited])

/-! ## Claim theorems about the connector -/

/-- C2: the password is never placed in the argument list of the command spec
that `init` or `write` builds. The argument lists of both assembled commands
are invariant under any change of the password field (they are built only
from host, port, database and username), routing never alters the inner
command's argument list, and the password travels only through the
environment-variable channel, which is exactly the single binding
`PGPASSWORD ↦ password`: the local environment override when no tunnel is
configured, or the secret-environment map handed to the remote wrapper when
one is. -/
theorem password_only_in_env (p : Postgres) (x : String) (c : Cmd) :
    (wipe_db_cmd { p with password := x }).args = (wipe_db_cmd p).args ∧
    (psql_cmd { p with password := x }).args = (psql_cmd p).args ∧
    (route p c).innerCmd.args = c.args ∧
    (route p (wipe_db_cmd p)).secretEnv = [("PGPASSWORD", p.password)] ∧
    (route p (psql_cmd p)).secretEnv = [("PGPASSWORD", p.password)] := by
  refine ⟨rfl, rfl, ?_, ?_, ?_⟩ <;>
    cases h : p.ssh_config <;>
      simp [route, FinalCmd.innerCmd, FinalCmd.secretEnv, wipe_db_cmd, psql_cmd, h]

/-- C3: with the reset flag set (and the tool present and the spawn
succeeding, so that a restore-tool process runs), `init` succeeds exactly
when the process exits with status code zero, and any nonzero or
signal-terminated exit yields an error whose diagnostic text carries the raw
exit-status description (inside the source's `command error: {:?}`
rendering). -/
theorem init_result_follows_exit_status (p : Postgres) (w : World) :
    (init { p with wipe_database := true }
        { w with psql_exists := true, spawn_fails := false }).1
      = (if w.exit_status.success then Except.ok ()
         else Except.error
           (.other ("command error: " ++ rustDebugStr w.exit_status.descr))) := by
  by_cases h : w.exit_status.success <;> simp [init, h]

/-- C4: a failure while writing the payload to the subprocess's stdin does
not by itself make `write` return an error: the result of `write` is
invariant under the stdin-write outcome, and (once the spawn succeeded) it is
exactly the verdict of the subsequent wait on the process's exit status. -/
theorem write_result_ignores_stdin_outcome (p : Postgres) (data : Bytes) (w : World)
    (b : Bool) :
    (write p data { w with stdin_write_fails := b }).1 = (write p data w).1 ∧
    (write p data { w with spawn_fails := false }).1 = wait_for_command w.exit_status := by
  by_cases h : w.spawn_fails <;> simp [write, h]

/-- C5: `init` verifies first that `psql` is resolvable: when it is not, the
call returns the tool-not-found error with the tool check as its entire
effect trace (no command spawned), and in every call the first effect is the
tool check. -/
theorem init_fails_fast_without_tool (p : Postgres) (w : World) :
    init p { w with psql_exists := false }
      = (Except.error (.notFound "psql"), p, [Event.checkBinary "psql"]) ∧
    (init p w).2.2.head? = some (Event.checkBinary "psql") := by
  constructor
  · simp [init]
  · by_cases h1 : w.psql_exists <;> by_cases h2 : p.wipe_database <;>
      by_cases h3 : w.spawn_fails <;> by_cases h4 : w.exit_status.success <;>
        simp [init, h1, h2, h3, h4]

/-- C6: the reset statement is built and executed only under the reset flag
and only inside `init`: with the flag cleared, `init`'s trace holds no spawn
at all; with the flag set, the only spawned command is the routed
`wipe_db_cmd`, whose argument list carries `-c` followed by the reset
statement; and `write` only ever spawns the routed `psql_cmd`, whose argument
list is exactly the connection flags, with no `-c` and no reset statement,
for every payload and configuration. -/
theorem reset_only_in_init (p : Postgres) (data : Bytes) (w : World) :
    (init { p with wipe_database := false } w).2.2 = [Event.checkBinary "psql"] ∧
    (init { p with wipe_database := true } { w with psql_exists := true }).2.2
      = [Event.checkBinary "psql", Event.spawn (route p (wipe_db_cmd p)) false]
        ++ (if w.spawn_fails then [] else [Event.waited]) ∧
    (wipe_db_cmd p).args
      = ["-h", p.host, "-p", Nat.repr p.port, "-d", p.database, "-U", p.username,
         "-c", wipe_database_query p.username] ∧
    (write p data w).2.2
      = [Event.spawn (route p (psql_cmd p)) true]
        ++ (if w.spawn_fails then []
            else [Event.wroteStdin data w.stdin_write_fails, Event.waited]) ∧
    (psql_cmd p).args
      = ["-h", p.host, "-p", Nat.repr p.port, "-d", p.database, "-U", p.username] := by
  refine ⟨?_, ?_, rfl, ?_, rfl⟩
  · by_cases h1 : w.psql_exists <;> simp [init, h1]
  · by_cases h3 : w.spawn_fails <;> by_cases h4 : w.exit_status.success <;>
      simp [init, h3, h4] <;> rfl
  · by_cases h3 : w.spawn_fails <;> simp [write, h3]

/-- C7: with the reset flag cleared, `init` performs only the tool-existence
check — its entire effect trace is that check, no command is spawned — and
returns success whenever the check passes (and the check's error
otherwise). -/
theorem init_noop_without_reset (p : Postgres) (w : World) :
    (init { p with wipe_database := false } w).2.2 = [Event.checkBinary "psql"] ∧
    (init { p with wipe_database := false } w).1
      = (if w.psql_exists then Except.ok () else Except.error (.notFound "psql")) := by
  by_cases h1 : w.psql_exists <;> simp [init, h1]

/-- C8: `write` assembles a restore-tool invocation whose argument list is
exactly `-h <host> -p <port> -d <database> -U <username>` with the port
rendered as its decimal string and no `-c` argument, and (once the spawn
succeeded) feeds the payload bytes to the process's input stream. -/
theorem write_invocation_shape (p : Postgres) (data : Bytes) (w : World) :
    (psql_cmd p).args
      = ["-h", p.host, "-p", Nat.repr p.port, "-d", p.database, "-U", p.username] ∧
    (write p data { w with spawn_fails := false }).2.2
      = [Event.spawn (route p (psql_cmd p)) true,
         Event.wroteStdin data w.stdin_write_fails, Event.waited] := by
  exact ⟨rfl, rfl⟩

/-- C9: neither `init` nor `write` modifies any field of the connector: the
connector state each call returns is the one it was given. -/
theorem connector_state_unchanged (p : Postgres) (data : Bytes) (w : World) :
    (init p w).2.1 = p ∧ (write p data w).2.1 = p := by
  constructor
  · by_cases h1 : w.psql_exists <;> by_cases h2 : p.wipe_database <;>
      by_cases h3 : w.spawn_fails <;> by_cases h4 : w.exit_status.success <;>
        simp [init, h1, h2, h3, h4]
  · by_cases h3 : w.spawn_fails <;> simp [write, h3]

/-- C10: the unwrap of the spawned child's stdin handle in `write` cannot
panic: `write`'s spawn is always configured with piped stdin (the spawn event
records it), and by the standard library contract a successfully spawned
child of a piped-stdin command has a present stdin handle. -/
theorem write_stdin_handle_present (p : Postgres) (data : Bytes) (w : World) :
    (write p data w).2.2.head? = some (Event.spawn (route p (psql_cmd p)) true) ∧
    (spawnChild true).stdin = some () := by
  constructor
  · by_cases h3 : w.spawn_fails <;> simp [write, h3]
  · rfl

end Replibyte
